import Mathlib

/-!
Verification development for the DRR orchestrator of DiffDRR (src/drr.py).

The repository's provided source is the orchestrator class DRR (an
nn.Module) only; its collaborators — Detector (utils/camera.py),
Siddon (projectors/siddon.py) and get_device (utils/backend.py) — are
declared and called from drr.py but their files are not part of the
provided source.  Those collaborators are therefore modelled from the
spec at the interface level (each such definition carries a doc
comment starting with "Modelled from the spec:"); everything else is a
direct shallow embedding of drr.py.

Tensors are modelled by their dtype/device metadata together with
rational values (floating-point rounding itself is not modelled; none
of the properties below depends on it).
-/

namespace DiffDRR

/-- Compute devices accepted by the constructor (drr.py docstring:
"cpu", "cuda", or "mps"). -/
inductive Device
  | cpu
  | cuda
  | mps
deriving DecidableEq

/-- Tensor dtypes relevant here: torch.float32 (the dtype forced by
initialize_parameters) and torch.float64 (the precision of a plain
Python float supplied by the caller). -/
inductive DType
  | float32
  | float64
deriving DecidableEq

/-- The Python exceptions the embedded operations can surface, plus the
UninitializedPoseError named by the spec (shown below never to be
raised by the code). -/
inductive PyError
  /-- RuntimeError "Could not infer dtype of NoneType", raised by
  torch.tensor when one of its scalar arguments is None. -/
  | couldNotInferDtype
  /-- The generic failure of Detector.make_xrays when handed None in
  place of pose tensors (arithmetic on None raises TypeError). -/
  | typeError
  /-- The construction-time detector-geometry error named by the spec. -/
  | shapeMismatchError
  /-- The dedicated uninitialized-pose error named by the spec. -/
  | uninitializedPoseError
deriving DecidableEq

/-- A caller-supplied numeric scalar: its value and the precision it
arrives with (a plain Python float is 64-bit). -/
structure Scalar where
  val : ℚ
  prec : DType
deriving DecidableEq

/-- A 0-dimensional torch tensor: value plus dtype/device metadata. -/
structure Tensor0 where
  val : ℚ
  dtype : DType
  device : Device
deriving DecidableEq

/-- A length-3 torch tensor: values plus dtype/device metadata. -/
structure Tensor3 where
  vals : ℚ × ℚ × ℚ
  dtype : DType
  device : Device
deriving DecidableEq

/-- torch.nn.Parameter wrapping a tensor: the tensor together with its
requires_grad flag (nn.Parameter defaults requires_grad to True;
drr.py passes requires_grad=False explicitly for sdr). -/
structure Param (α : Type) where
  data : α
  requiresGrad : Bool
deriving DecidableEq

/-- The CT volume: an immutable 3D scalar grid (drr.py passes it through
to Siddon untouched). -/
structure Volume where
  data : List (List (List ℚ))
deriving DecidableEq

/-- The X-ray detector constructed by DRR.__init__ with
Detector(height, width, delx, dely, device). -/
structure Detector where
  height : Int
  width : Int
  delx : ℚ
  dely : ℚ
  device : Device
deriving DecidableEq

/-- The Siddon projector container constructed by DRR.__init__ with
Siddon(volume, spacing, device). -/
structure Siddon where
  volume : Volume
  spacing : ℚ × ℚ × ℚ
  device : Device
deriving DecidableEq

/-- Modelled from the spec: utils/backend.py (get_device) is not part of
the provided source.  The spec treats the device selector as opaque to
the core ("core must run identically regardless of selected compute
backend"), so it is modelled as the identity on the device enumeration. -/
def get_device (device : Device) : Device := device

/-- Modelled from the spec: utils/camera.py (Detector.__init__) is not
part of the provided source.  Spec section 7: "ShapeMismatchError:
detector geometry parameters inconsistent (e.g., negative/zero height,
width, delx, dely). Surfaced at construction time, not deferred to
render time"; section 3 requires height, width integers > 0 and delx,
dely > 0.  The constructor is modelled to raise ShapeMismatchError
exactly on non-positive geometry. -/
def Detector.init (height width : Int) (delx dely : ℚ) (device : Device) :
    Except PyError Detector :=
  if height ≤ 0 ∨ width ≤ 0 ∨ delx ≤ 0 ∨ dely ≤ 0 then
    Except.error PyError.shapeMismatchError
  else
    Except.ok { height := height, width := width, delx := delx, dely := dely, device := device }

/-- The source point and per-pixel rays produced by Detector.make_xrays.
The numeric ray geometry (Euler rotation matrices, trigonometry) lives
in the missing camera/Siddon files; the bundle is represented by the
data that determines it per the spec: the detector geometry and the
pose tensors. -/
structure RayBundle where
  det : Detector
  sdr : Tensor0
  rotations : Tensor3
  translations : Tensor3
deriving DecidableEq

/-- The DRR image returned by one render call: its pixel-grid shape and
the data that determines its pixel intensities (the projector state and
the ray bundle), per the spec a deterministic function of those. -/
structure Image where
  height : Int
  width : Int
  content : Siddon × RayBundle
deriving DecidableEq

/-- Modelled from the spec: utils/camera.py (Detector.make_xrays) is not
part of the provided source.  Per spec section 4.2 it is a pure,
side-effect-free function of the pose tensors and the detector
geometry, producing the source point and one ray per detector pixel in
row-major order.  drr.py calls it with self.sdr / self.rotations /
self.translations, which are None until a pose is set; in Python,
computing ray geometry from None raises a TypeError (no rays can be
produced from an absent pose), modelled as the typeError outcome. -/
def Detector.make_xrays (det : Detector) (sdr : Option (Param Tensor0))
    (rotations : Option (Param Tensor3)) (translations : Option (Param Tensor3)) :
    Except PyError RayBundle :=
  match sdr, rotations, translations with
  | some s, some r, some t =>
      Except.ok { det := det, sdr := s.data, rotations := r.data, translations := t.data }
  | _, _, _ => Except.error PyError.typeError

/-- Modelled from the spec: projectors/siddon.py (Siddon.raytrace) is not
part of the provided source.  Per spec section 4.3 it is a
deterministic pure function of the volume and the rays, returning one
scalar per ray and preserving ray order, i.e. a 2D image of shape
(height, width) matching the detector pixel grid.  Pixel intensities
are the Siddon line integrals of the determining data recorded in the
image. -/
def Siddon.raytrace (s : Siddon) (rays : RayBundle) : Image :=
  { height := rays.det.height, width := rays.det.width, content := (s, rays) }

/-- The mutable state of the DRR orchestrator (class DRR in drr.py):
the device, the two collaborators built in __init__, and the three
registered pose parameters, each None until initialize_parameters runs. -/
structure DRR where
  device : Device
  detector : Detector
  siddon : Siddon
  sdr : Option (Param Tensor0)
  rotations : Option (Param Tensor3)
  translations : Option (Param Tensor3)
deriving DecidableEq

/-- DRR.__init__ (drr.py lines 10-43): resolves the device, applies the
width/dely defaults exactly as written in the source —
width = height if width is None else width;
dely = delx if dely is None else delx  (note: delx in BOTH branches) —
then constructs the Detector and the Siddon projector and registers the
three pose parameters as None. -/
def DRR.init (volume : Volume) (spacing : ℚ × ℚ × ℚ) (height : Int) (delx : ℚ)
    (width : Option Int) (dely : Option ℚ) (device : Device) : Except PyError DRR :=
  let dev := get_device device
  let width2 : Int := match width with | none => height | some w => w
  let dely2 : ℚ := match dely with | none => delx | some _ => delx
  (Detector.init height width2 delx dely2 device).map fun det =>
    { device := dev
      detector := det
      siddon := { volume := volume, spacing := spacing, device := device }
      sdr := none
      rotations := none
      translations := none }

/-- torch.tensor(x, dtype=..., device=...) on a single scalar argument:
fails when the argument is None, otherwise produces a 0-d tensor with
the forced dtype and device (a float64 input is narrowed to the forced
dtype). -/
def torch_tensor0 (x : Option Scalar) (dtype : DType) (device : Device) :
    Except PyError Tensor0 :=
  match x with
  | none => Except.error PyError.couldNotInferDtype
  | some s => Except.ok { val := s.val, dtype := dtype, device := device }

/-- torch.tensor([x, y, z], dtype=..., device=...): fails when any list
element is None, otherwise produces a length-3 tensor with the forced
dtype and device. -/
def torch_tensor3 (x y z : Option Scalar) (dtype : DType) (device : Device) :
    Except PyError Tensor3 :=
  match x, y, z with
  | some a, some b, some c =>
      Except.ok { vals := (a.val, b.val, c.val), dtype := dtype, device := device }
  | _, _, _ => Except.error PyError.couldNotInferDtype

/-- DRR.initialize_parameters (drr.py lines 58-80), statement by
statement: it builds and assigns self.sdr (requires_grad=False), then
self.rotations, then self.translations (nn.Parameter default
requires_grad=True), each as torch.tensor(..., dtype=torch.float32,
device=self.device).  A tensor construction that sees None raises, and
the assignments already executed persist — the result is the state
after the assignments that succeeded, paired with the raised error if
any. -/
def DRR.initialize_parameters (m : DRR) (sdr theta phi gamma bx by_ bz : Option Scalar) :
    DRR × Option PyError :=
  match torch_tensor0 sdr DType.float32 m.device with
  | Except.error e => (m, some e)
  | Except.ok t0 =>
    let m1 := { m with sdr := some { data := t0, requiresGrad := false } }
    match torch_tensor3 theta phi gamma DType.float32 m1.device with
    | Except.error e => (m1, some e)
    | Except.ok t1 =>
      let m2 := { m1 with rotations := some { data := t1, requiresGrad := true } }
      match torch_tensor3 bx by_ bz DType.float32 m2.device with
      | Except.error e => (m2, some e)
      | Except.ok t2 =>
        ({ m2 with translations := some { data := t2, requiresGrad := true } }, none)

/-- The render tail of DRR.forward (drr.py lines 54-56):
source, rays = self.detector.make_xrays(self.sdr, self.rotations, self.translations);
drr = self.siddon.raytrace(source, rays); return drr. -/
def render (m : DRR) : Except PyError Image :=
  match Detector.make_xrays m.detector m.sdr m.rotations m.translations with
  | Except.error e => Except.error e
  | Except.ok rays => Except.ok (Siddon.raytrace m.siddon rays)

/-- DRR.forward (drr.py lines 45-56): if any of the seven arguments is
not None, call initialize_parameters (an exception raised there
propagates, with the state as the partial update left it); then render
from the stored pose.  The result is the final state paired with the
returned image or the raised exception. -/
def DRR.forward (m : DRR) (sdr theta phi gamma bx by_ bz : Option Scalar) :
    DRR × Except PyError Image :=
  if sdr.isSome || theta.isSome || phi.isSome || gamma.isSome
      || bx.isSome || by_.isSome || bz.isSome then
    match m.initialize_parameters sdr theta phi gamma bx by_ bz with
    | (m2, some e) => (m2, Except.error e)
    | (m2, none) => (m2, render m2)
  else
    (m, render m)

/-! Concrete fixtures used by witnesses and counterexamples. -/

/-- A small concrete CT volume. -/
def testVolume : Volume := ⟨[[[1, 0], [0, 1]], [[0, 1], [1, 0]]]⟩

/-- A caller-supplied plain Python float (64-bit precision). -/
def pyFloat (q : ℚ) : Scalar := ⟨q, DType.float64⟩

/-- A freshly constructed orchestrator: DRR(testVolume, (1,1,1),
height=8, delx=1, device="cpu"), no pose ever set. -/
def drrFresh : DRR :=
  { device := Device.cpu
    detector := { height := 8, width := 8, delx := 1, dely := 1, device := Device.cpu }
    siddon := { volume := testVolume, spacing := (1, 1, 1), device := Device.cpu }
    sdr := none
    rotations := none
    translations := none }

/-- drrFresh is exactly what the embedded constructor produces. -/
theorem drrFresh_from_init :
    DRR.init testVolume (1, 1, 1) 8 1 none none Device.cpu = Except.ok drrFresh := rfl

/-- The stored sdr parameter after setting the pose (100, 0,0,0, 0,0,0). -/
def sdrParam100 : Param Tensor0 :=
  { data := { val := 100, dtype := DType.float32, device := Device.cpu }, requiresGrad := false }

/-- The stored rotations parameter after setting the pose (100, 0,0,0, 0,0,0). -/
def rotParam0 : Param Tensor3 :=
  { data := { vals := (0, 0, 0), dtype := DType.float32, device := Device.cpu }, requiresGrad := true }

/-- The stored translations parameter after setting the pose (100, 0,0,0, 0,0,0). -/
def transParam0 : Param Tensor3 :=
  { data := { vals := (0, 0, 0), dtype := DType.float32, device := Device.cpu }, requiresGrad := true }

/-- The fresh orchestrator after initialize_parameters(100, 0, 0, 0, 0, 0, 0). -/
def drrPosed : DRR :=
  (drrFresh.initialize_parameters (some (pyFloat 100)) (some (pyFloat 0)) (some (pyFloat 0))
    (some (pyFloat 0)) (some (pyFloat 0)) (some (pyFloat 0)) (some (pyFloat 0))).1

/-! Claim theorems. -/

/-- Claim C1, counterexample: on a freshly constructed orchestrator
(pose never set), forward with all seven arguments omitted fails — but
with the detector's TypeError on the None pose tensors, which is not
the UninitializedPoseError the claim names; the orchestrator performs
no uninitialized-pose check of its own. -/
theorem forward_uninitialized_not_uninitializedPoseError :
    (DRR.init testVolume (1, 1, 1) 8 1 none none Device.cpu).map
        (fun m => (m.forward none none none none none none none).2)
      = Except.ok (Except.error PyError.typeError) ∧
    PyError.typeError ≠ PyError.uninitializedPoseError := by
  exact ⟨rfl, by decide⟩

/-- Claim C1, amended: on any orchestrator whose pose was never set
(stored sdr still None), forward with all seven arguments omitted never
returns an image — it fails, but with the TypeError arising from the
detector receiving None pose tensors, not with a dedicated
UninitializedPoseError (no such check or error class exists in the code). -/
theorem forward_uninitialized_fails (m : DRR) (h : m.sdr = none) :
    (m.forward none none none none none none none).2 = Except.error PyError.typeError := by
  simp [DRR.forward, render, Detector.make_xrays, h]

/-- Claim C1, witness for the amended theorem at the fresh orchestrator. -/
theorem forward_uninitialized_fails_witness :
    drrFresh.sdr = none ∧
    (drrFresh.forward none none none none none none none).2 = Except.error PyError.typeError :=
  ⟨rfl, forward_uninitialized_fails drrFresh rfl⟩

/-- Claim C2 (code bug): the constructor line
"dely = delx if dely is None else delx" discards a caller-supplied
dely.  With height=8, delx=1 and supplied dely=2 the Detector receives
dely=1 (= delx), not the supplied 2, contradicting the constructor's
own docstring; a supplied width=5 is honored. -/
theorem ctor_discards_supplied_dely :
    (DRR.init testVolume (1, 1, 1) 8 1 none (some 2) Device.cpu).map
        (fun m => m.detector.dely) = Except.ok 1 ∧
    (1 : ℚ) ≠ 2 ∧
    (DRR.init testVolume (1, 1, 1) 8 1 (some 5) none Device.cpu).map
        (fun m => m.detector.width) = Except.ok 5 := by
  refine ⟨rfl, by norm_num, rfl⟩

/-- Claim C3, counterexample: on an orchestrator with pose already set,
forward supplying only sdr=5 (the other six arguments None) fails —
but the stored sdr has visibly changed to the new value, so the failed
partial call did leave a partial update behind. -/
theorem incomplete_pose_update_observable :
    (drrPosed.forward (some (pyFloat 5)) none none none none none none).2
      = Except.error PyError.couldNotInferDtype ∧
    (drrPosed.forward (some (pyFloat 5)) none none none none none none).1.sdr
      ≠ drrPosed.sdr := by
  refine ⟨rfl, by decide⟩

/-- Value the stored sdr parameter holds after a (possibly failing)
initialize_parameters call: replaced exactly when the sdr argument was
supplied, since the sdr assignment is the first statement executed. -/
def storedSdrAfter (m : DRR) (sdr : Option Scalar) : Option (Param Tensor0) :=
  match sdr with
  | none => m.sdr
  | some s =>
      some { data := { val := s.val, dtype := DType.float32, device := m.device },
             requiresGrad := false }

/-- Value the stored rotations parameter holds after a (possibly
failing) initialize_parameters call: replaced exactly when sdr and all
three rotation angles were supplied (the rotations assignment executes
only after the sdr assignment succeeded). -/
def storedRotAfter (m : DRR) (sdr theta phi gamma : Option Scalar) :
    Option (Param Tensor3) :=
  match sdr, theta, phi, gamma with
  | some _, some t, some p, some g =>
      some { data := { vals := (t.val, p.val, g.val), dtype := DType.float32,
                       device := m.device },
             requiresGrad := true }
  | _, _, _, _ => m.rotations

/-- Claim C3, amended: a forward call supplying at least one but not all
seven pose scalars always fails, and the stored translations are never
changed by it; but the update is not all-or-nothing: the assignments
preceding the first missing argument persist — the stored sdr is
replaced whenever sdr is supplied, and the stored rotations are
replaced whenever sdr and all three rotation angles are supplied. -/
theorem incomplete_pose_call_fails_keeps_executed_assignments
    (m : DRR) (sdr theta phi gamma bx by_ bz : Option Scalar)
    (hsome : (sdr.isSome || theta.isSome || phi.isSome || gamma.isSome
        || bx.isSome || by_.isSome || bz.isSome) = true)
    (hnotall : ¬ (sdr.isSome = true ∧ theta.isSome = true ∧ phi.isSome = true
        ∧ gamma.isSome = true ∧ bx.isSome = true ∧ by_.isSome = true ∧ bz.isSome = true)) :
    (∃ e, (m.forward sdr theta phi gamma bx by_ bz).2 = Except.error e) ∧
    (m.forward sdr theta phi gamma bx by_ bz).1.translations = m.translations ∧
    (m.forward sdr theta phi gamma bx by_ bz).1.sdr = storedSdrAfter m sdr ∧
    (m.forward sdr theta phi gamma bx by_ bz).1.rotations
      = storedRotAfter m sdr theta phi gamma := by
  cases sdr <;> cases theta <;> cases phi <;> cases gamma <;>
    cases bx <;> cases by_ <;> cases bz <;>
    first
      | exact (hnotall ⟨rfl, rfl, rfl, rfl, rfl, rfl, rfl⟩).elim
      | exact ⟨⟨_, rfl⟩, rfl, rfl, rfl⟩
      | simp at hsome

/-- Claim C3, witness for the amended theorem: pose set, then forward
supplying only sdr=5. -/
theorem incomplete_pose_call_fails_keeps_executed_assignments_witness :
    ((some (pyFloat 5) : Option Scalar).isSome || (none : Option Scalar).isSome
        || (none : Option Scalar).isSome || (none : Option Scalar).isSome
        || (none : Option Scalar).isSome || (none : Option Scalar).isSome
        || (none : Option Scalar).isSome) = true ∧
    ¬ ((some (pyFloat 5) : Option Scalar).isSome = true
        ∧ (none : Option Scalar).isSome = true ∧ (none : Option Scalar).isSome = true
        ∧ (none : Option Scalar).isSome = true ∧ (none : Option Scalar).isSome = true
        ∧ (none : Option Scalar).isSome = true ∧ (none : Option Scalar).isSome = true) ∧
    ((∃ e, (drrPosed.forward (some (pyFloat 5)) none none none none none none).2
        = Except.error e) ∧
     (drrPosed.forward (some (pyFloat 5)) none none none none none none).1.translations
        = drrPosed.translations ∧
     (drrPosed.forward (some (pyFloat 5)) none none none none none none).1.sdr
        = some { data := { val := (pyFloat 5).val, dtype := DType.float32,
                           device := drrPosed.device },
                 requiresGrad := false } ∧
     (drrPosed.forward (some (pyFloat 5)) none none none none none none).1.rotations
        = drrPosed.rotations) :=
  ⟨by decide, by decide,
   incomplete_pose_call_fails_keeps_executed_assignments drrPosed
     (some (pyFloat 5)) none none none none none none (by decide) (by decide)⟩

/-- Claim C4, counterexample: after setting a pose, the stored sdr
parameter has requires_grad = False (drr.py passes requires_grad=False
explicitly), so not every one of the 7 pose scalars is registered as a
gradient-enabled parameter. -/
theorem sdr_not_gradient_enabled :
    drrPosed.sdr.map (fun p => p.requiresGrad) = some false := rfl

/-- Claim C4, amended: after a pose is set via initialize_parameters,
the rotations (theta, phi, gamma) and translations (bx, by, bz) are
registered as gradient-enabled parameters (requires_grad = True, the
nn.Parameter default), but sdr is registered with requires_grad = False
("Assume that SDR is given for a 6DoF registration problem"), so
automatic differentiation propagates through 6 of the 7 pose
parameters, not all 7. -/
theorem pose_grad_flags (m : DRR) (s t p g x y z : Scalar) :
    ((m.initialize_parameters (some s) (some t) (some p) (some g)
        (some x) (some y) (some z)).1.sdr.map (fun q => q.requiresGrad) = some false) ∧
    ((m.initialize_parameters (some s) (some t) (some p) (some g)
        (some x) (some y) (some z)).1.rotations.map (fun q => q.requiresGrad) = some true) ∧
    ((m.initialize_parameters (some s) (some t) (some p) (some g)
        (some x) (some y) (some z)).1.translations.map (fun q => q.requiresGrad) = some true) :=
  ⟨rfl, rfl, rfl⟩

/-- Claim C5: calling forward with a complete 7-tuple of pose scalars
returns the same image and the same final state as first calling
initialize_parameters with that tuple and then calling forward with no
arguments. -/
theorem forward_with_args_eq_init_then_forward (m : DRR) (s t p g x y z : Scalar) :
    m.forward (some s) (some t) (some p) (some g) (some x) (some y) (some z)
      = ((m.initialize_parameters (some s) (some t) (some p) (some g)
            (some x) (some y) (some z)).1.forward none none none none none none none) := rfl

/-- Claim C6: a forward call supplying no new parameters leaves the
stored state (in particular sdr, rotations, translations) exactly
unchanged and renders from the previously stored pose tensors. -/
theorem forward_no_args_frame (m : DRR) (sp : Param Tensor0) (rp tp : Param Tensor3)
    (hs : m.sdr = some sp) (hr : m.rotations = some rp) (ht : m.translations = some tp) :
    m.forward none none none none none none none
      = (m, Except.ok (Siddon.raytrace m.siddon
          { det := m.detector, sdr := sp.data, rotations := rp.data,
            translations := tp.data })) := by
  simp [DRR.forward, render, Detector.make_xrays, hs, hr, ht]

/-- Claim C6, witness at the posed orchestrator. -/
theorem forward_no_args_frame_witness :
    drrPosed.sdr = some sdrParam100 ∧
    drrPosed.rotations = some rotParam0 ∧
    drrPosed.translations = some transParam0 ∧
    drrPosed.forward none none none none none none none
      = (drrPosed, Except.ok (Siddon.raytrace drrPosed.siddon
          { det := drrPosed.detector, sdr := sdrParam100.data, rotations := rotParam0.data,
            translations := transParam0.data })) :=
  ⟨rfl, rfl, rfl,
   forward_no_args_frame drrPosed sdrParam100 rotParam0 transParam0 rfl rfl rfl⟩

/-- Claim C8: with a pose stored, two consecutive forward calls that
supply no new parameters are deterministic — the second call returns
exactly the same (state, result) pair as the first, and both return the
same image. -/
theorem forward_deterministic (m : DRR) (sp : Param Tensor0) (rp tp : Param Tensor3)
    (hs : m.sdr = some sp) (hr : m.rotations = some rp) (ht : m.translations = some tp) :
    ((m.forward none none none none none none none).1.forward none none none none none none none)
      = m.forward none none none none none none none ∧
    ∃ img : Image,
      (m.forward none none none none none none none).2 = Except.ok img ∧
      ((m.forward none none none none none none none).1.forward
          none none none none none none none).2 = Except.ok img := by
  refine ⟨rfl, Siddon.raytrace m.siddon
      { det := m.detector, sdr := sp.data, rotations := rp.data, translations := tp.data },
    ?_, ?_⟩ <;>
  simp [DRR.forward, render, Detector.make_xrays, hs, hr, ht]

/-- Claim C8, witness at the posed orchestrator. -/
theorem forward_deterministic_witness :
    drrPosed.sdr = some sdrParam100 ∧
    drrPosed.rotations = some rotParam0 ∧
    drrPosed.translations = some transParam0 ∧
    (((drrPosed.forward none none none none none none none).1.forward
        none none none none none none none)
      = drrPosed.forward none none none none none none none ∧
     ∃ img : Image,
      (drrPosed.forward none none none none none none none).2 = Except.ok img ∧
      ((drrPosed.forward none none none none none none none).1.forward
          none none none none none none none).2 = Except.ok img) :=
  ⟨rfl, rfl, rfl,
   forward_deterministic drrPosed sdrParam100 rotParam0 transParam0 rfl rfl rfl⟩

/-- Claim C9: with a pose stored, a forward call supplying no new
parameters returns an image whose shape is exactly the detector
geometry fixed at construction: height = detector.height and
width = detector.width (the orchestrator stores no image, so each call
produces it afresh from the current state). -/
theorem forward_image_shape (m : DRR) (sp : Param Tensor0) (rp tp : Param Tensor3)
    (hs : m.sdr = some sp) (hr : m.rotations = some rp) (ht : m.translations = some tp) :
    ∃ img : Image,
      (m.forward none none none none none none none).2 = Except.ok img ∧
      img.height = m.detector.height ∧ img.width = m.detector.width := by
  refine ⟨Siddon.raytrace m.siddon
      { det := m.detector, sdr := sp.data, rotations := rp.data, translations := tp.data },
    ?_, rfl, rfl⟩
  simp [DRR.forward, render, Detector.make_xrays, hs, hr, ht]

/-- Claim C9, witness at the posed orchestrator. -/
theorem forward_image_shape_witness :
    drrPosed.sdr = some sdrParam100 ∧
    drrPosed.rotations = some rotParam0 ∧
    drrPosed.translations = some transParam0 ∧
    (∃ img : Image,
      (drrPosed.forward none none none none none none none).2 = Except.ok img ∧
      img.height = drrPosed.detector.height ∧ img.width = drrPosed.detector.width) :=
  ⟨rfl, rfl, rfl,
   forward_image_shape drrPosed sdrParam100 rotParam0 transParam0 rfl rfl rfl⟩

/-- Claim C10: whenever a pose is stored by initialize_parameters, each
of the three stored parameter tensors has dtype float32 and lives on
the device chosen at construction, regardless of the values or the
precision tags of the caller-supplied scalars (the inputs' precision is
ignored: the dtype is forced to float32). -/
theorem stored_pose_dtype_device (m : DRR) (s t p g x y z : Scalar) :
    ((m.initialize_parameters (some s) (some t) (some p) (some g)
        (some x) (some y) (some z)).1.sdr
      = some { data := { val := s.val, dtype := DType.float32, device := m.device },
               requiresGrad := false }) ∧
    ((m.initialize_parameters (some s) (some t) (some p) (some g)
        (some x) (some y) (some z)).1.rotations
      = some { data := { vals := (t.val, p.val, g.val), dtype := DType.float32,
                         device := m.device },
               requiresGrad := true }) ∧
    ((m.initialize_parameters (some s) (some t) (some p) (some g)
        (some x) (some y) (some z)).1.translations
      = some { data := { vals := (x.val, y.val, z.val), dtype := DType.float32,
                         device := m.device },
               requiresGrad := true }) :=
  ⟨rfl, rfl, rfl⟩

/-- Claim C7, counterexample: constructing the orchestrator with a
supplied NEGATIVE dely (height=4, delx=1, dely=-1) succeeds with no
error at all — the dely-default line discards the supplied -1 and hands
the Detector dely = delx = 1 — so inconsistent dely geometry does not
raise ShapeMismatchError at construction. -/
theorem ctor_negative_dely_no_error :
    DRR.init testVolume (1, 1, 1) 4 1 none (some (-1)) Device.cpu
      = Except.ok
          { device := Device.cpu
            detector := { height := 4, width := 4, delx := 1, dely := 1, device := Device.cpu }
            siddon := { volume := testVolume, spacing := (1, 1, 1), device := Device.cpu }
            sdr := none
            rotations := none
            translations := none } := rfl

/-- Claim C7, amended: construction fails with ShapeMismatchError
exactly when height, the effective width (the supplied width, else
height), or delx is non-positive; a non-positive SUPPLIED dely never
triggers it, because the constructor discards the supplied dely and
passes delx to the Detector in its place (the effective dely is always
delx, already covered by the delx condition).  When the error is
raised it is raised at construction time, before any render. -/
theorem ctor_shape_error_iff (volume : Volume) (spacing : ℚ × ℚ × ℚ) (height : Int)
    (delx : ℚ) (width : Option Int) (dely : Option ℚ) (device : Device) :
    DRR.init volume spacing height delx width dely device
        = Except.error PyError.shapeMismatchError
      ↔ (height ≤ 0 ∨ width.getD height ≤ 0 ∨ delx ≤ 0) := by
  cases width <;> cases dely <;>
    simp only [DRR.init, Detector.init, Option.getD, get_device] <;>
    split_ifs with h <;>
    simp [Except.map, not_le] <;>
    (try tauto) <;>
    simp_all [not_le]

end DiffDRR
